import Mathlib

/-!
Verification of the next-algo live market data layer.

Shallow embedding of the TypeScript sources:
* `packages/market-data/src/utils/index.ts` (`OptionChainCalculator`, `DateTimeUtils`)
* `packages/market-data/src/stores/liveDataStore.ts` (the zustand live-data store)
* `packages/market-data/src/services/upstoxService.ts` (poll-response handling)
* `packages/market-data/src/hooks/useMarketData.ts` (`enrichedOptionChain`)
* `apps/web/hooks/useBrokerConnection.ts` (connection CRUD)
* `apps/web/app/settings/page.tsx` (OAuth callback, token expiry)

JavaScript `number`s are modelled as `ℚ`; fields that may be `undefined` at runtime
are modelled as `Option`; wall-clock instants are minutes since a fixed local epoch
(`ℕ`), so a calendar day is `t / 1440` and the time of day is `t % 1440`.
-/

namespace NextAlgo

/-! ### OptionChainCalculator (packages/market-data/src/utils/index.ts) -/

/-- `OptionChainCalculator.getATMStrike`:
`Math.round(underlyingPrice / tickSize) * tickSize`.
JavaScript `Math.round x` is `⌊x + 1/2⌋`, which is Mathlib's `round` on `ℚ`. -/
def getATMStrike (underlyingPrice : ℚ) (tickSize : ℚ := 50) : ℚ :=
  (round (underlyingPrice / tickSize) : ℚ) * tickSize

/-- `OptionChainCalculator.generateStrikes`: the loop
`for (strike = atm - range; strike <= atm + range; strike += interval)`
visits `atm - range + k * interval` for `k = 0, 1, …` while the value stays
`≤ atm + range`; over `ℚ` with `0 < interval` and `0 ≤ range` these are exactly
`k ≤ ⌊2 * range / interval⌋`.  Visited strikes are pushed iff `strike > 0`, and the
result is sorted ascending (`.sort((a, b) => a - b)`).  For `range < 0` the loop
body never runs; for `interval ≤ 0 ≤ range` the source loop would not terminate
(unreachable in the repository, left as `[]`). -/
def generateStrikes (atmStrike : ℚ) (range : ℚ := 500) (interval : ℚ := 50) :
    List ℚ :=
  if 0 < interval ∧ 0 ≤ range then
    (((List.range (⌊2 * range / interval⌋.toNat + 1)).map
        (fun k : Nat => atmStrike - range + (k : ℚ) * interval)).filter
      (fun s => 0 < s)).mergeSort (fun a b => decide (a ≤ b))
  else []

/-- The slice of `OptionData` (packages/market-data/src/types) consulted by
`calculatePCR`; the interface declares `volume`/`oi` as `number`, but the code
guards each read with `|| 0`, so possibly-`undefined` runtime values are modelled
as `Option ℚ`.  The remaining fields are never read by `calculatePCR`. -/
structure OptionData where
  volume : Option ℚ
  oi : Option ℚ
deriving DecidableEq, Repr

/-- `ceData.reduce((sum, opt) => sum + (opt.volume || 0), 0)`. -/
def totalVolume (data : List OptionData) : ℚ :=
  data.foldl (fun sum opt => sum + opt.volume.getD 0) 0

/-- `ceData.reduce((sum, opt) => sum + (opt.oi || 0), 0)`. -/
def totalOI (data : List OptionData) : ℚ :=
  data.foldl (fun sum opt => sum + opt.oi.getD 0) 0

/-- Result shape of `OptionChainCalculator.calculatePCR`. -/
structure PCRResult where
  byVolume : ℚ
  byOI : ℚ
deriving DecidableEq, Repr

/-- `OptionChainCalculator.calculatePCR`. -/
def calculatePCR (ceData peData : List OptionData) : PCRResult :=
  let totalCEVolume := totalVolume ceData
  let totalPEVolume := totalVolume peData
  let totalCEOI := totalOI ceData
  let totalPEOI := totalOI peData
  { byVolume := if 0 < totalCEVolume then totalPEVolume / totalCEVolume else 0
    byOI := if 0 < totalCEOI then totalPEOI / totalCEOI else 0 }

/-! ### DateTimeUtils.isMarketOpen (packages/market-data/src/utils/index.ts)

`isMarketOpen` reads the current wall clock via `new Date()`; its three reads
(`getDay`, `getHours`, `getMinutes`) are passed here explicitly, so the function
is the pure part of the source applied to the clock readings. -/

/-- `DateTimeUtils.isMarketOpen`: closed on Sunday (`day = 0`) and Saturday
(`day = 6`); otherwise open iff `915 ≤ hours * 100 + minutes ≤ 1530`. -/
def isMarketOpen (day hours minutes : ℕ) : Bool :=
  if day = 0 ∨ day = 6 then false
  else
    let currentTime := hours * 100 + minutes
    decide (915 ≤ currentTime ∧ currentTime ≤ 1530)

/-! ### Broker connection rows (database/schema.sql, apps/web/hooks/useBrokerConnection.ts)

Wall-clock instants are minutes since a fixed local epoch.  The base64 transport
encoding (`btoa`/`atob`) applied to stored secrets is an injective recoding that
none of the claims consult, so encrypted fields hold the encoded payload
unchanged. -/

/-- `broker_name IN ('upstox', 'zerodha', 'angel')`. -/
inductive BrokerName
  | upstox
  | zerodha
  | angel
deriving DecidableEq, Repr

/-- A `broker_connections` row (the columns the audited operations read or
write). -/
structure BrokerConnectionRow where
  user_id : String
  broker_name : BrokerName
  broker_user_id : String
  api_key : String
  api_secret_encrypted : Option String
  access_token_encrypted : Option String
  refresh_token_encrypted : Option String
  is_active : Bool
  is_verified : Bool
  token_expires_at : Option ℕ
  last_verified_at : Option ℕ
deriving DecidableEq, Repr

/-- Input shape of `addBrokerConnection` (`BrokerCredentials`). -/
structure BrokerCredentials where
  broker_name : BrokerName
  broker_user_id : String
  api_key : String
  api_secret : String
deriving DecidableEq, Repr

/-- `validateBrokerCredentials` (apps/web/hooks/useBrokerConnection.ts):
`credentials.api_key.length > 10 && credentials.api_secret.length > 10`. -/
def validateBrokerCredentials (credentials : BrokerCredentials) : Bool :=
  10 < credentials.api_key.length && 10 < credentials.api_secret.length

/-- Failure modes of `addBrokerConnection`. -/
inductive AddConnectionError
  | notAuthenticated
  | invalidCredentials
deriving DecidableEq, Repr

/-- The row inserted by `addBrokerConnection` on the validated path. -/
def newConnectionRow (uid : String) (credentials : BrokerCredentials) (now : ℕ) :
    BrokerConnectionRow :=
  { user_id := uid
    broker_name := credentials.broker_name
    broker_user_id := credentials.broker_user_id
    api_key := credentials.api_key
    api_secret_encrypted := some credentials.api_secret
    access_token_encrypted := none
    refresh_token_encrypted := none
    is_active := true
    is_verified := true
    token_expires_at := none
    last_verified_at := some now }

/-- `addBrokerConnection` (apps/web/hooks/useBrokerConnection.ts, lines 56-110):
throws when no user is authenticated, validates the credential lengths, then
inserts the new row (the schema has no uniqueness constraint on
`(user_id, broker_name)`, so the insert always succeeds).  `connections` is the
user's already-fetched row list; the result is the table content after the
insert. -/
def addBrokerConnection (user : Option String)
    (connections : List BrokerConnectionRow) (credentials : BrokerCredentials)
    (now : ℕ) : Except AddConnectionError (List BrokerConnectionRow) :=
  match user with
  | none => .error .notAuthenticated
  | some uid =>
    if validateBrokerCredentials credentials then
      .ok (connections ++ [newConnectionRow uid credentials now])
    else
      .error .invalidCredentials

/-- `refreshBrokerToken` (apps/web/hooks/useBrokerConnection.ts, lines 174-199):
the mock refresh sets `token_expires_at` 24 hours ahead, `is_active = true` and
`last_verified_at = now`; if the database update fails (`dbOk = false`) the
`catch` block only records the error message and the row is untouched.  Returns
the row after the call and the recorded error, if any. -/
def refreshBrokerToken (row : BrokerConnectionRow) (now : ℕ) (dbOk : Bool) :
    BrokerConnectionRow × Option String :=
  if dbOk then
    ({ row with
        token_expires_at := some (now + 24 * 60)
        is_active := true
        last_verified_at := some now }, none)
  else
    (row, some "refresh update failed")

/-- Failure modes of the store's initialize operation. -/
inductive InitializeError
  | noActiveConnection
  | tokenExpired
deriving DecidableEq, Repr

/-- `liveDataStore.initialize` (packages/market-data/src/stores/liveDataStore.ts, lines
71-117): fetches the user's rows with `is_active = true`; `.single()` fails
unless exactly one such row exists (surfaced as
`No active broker connection found`); then an already-past `token_expires_at`
fails with `Access token has expired`.  The connect/poll phase is outside this
claim. -/
def initializeConnection (rows : List BrokerConnectionRow) (now : ℕ) :
    Except InitializeError BrokerConnectionRow :=
  match rows.filter (fun r => r.is_active) with
  | [row] =>
    match row.token_expires_at with
    | some expiry => if expiry ≤ now then .error .tokenExpired else .ok row
    | none => .ok row
  | _ => .error .noActiveConnection

/-! ### OAuth callback (apps/web/app/settings/page.tsx, UpstoxCallbackPage) -/

/-- `calculateUpstoxTokenExpiry` (lines 224-230): `tomorrow = now;
tomorrow.setDate(getDate() + 1); tomorrow.setHours(3, 30, 0, 0)` — 03:30 local
time on the calendar day after `now`. -/
def calculateUpstoxTokenExpiry (now : ℕ) : ℕ :=
  (now / 1440 + 1) * 1440 + (3 * 60 + 30)

/-- Token-exchange response fields the callback reads.  `expires_in` is present
in the broker's payload but never read. -/
structure TokenResponse where
  access_token : Option String
  extended_token : Option String
  expires_in : Option ℕ
deriving DecidableEq, Repr

/-- Failure modes of the OAuth callback. -/
inductive CallbackError
  | notAuthenticated
  | upstreamOAuthError
  | missingCode
  | missingState
  | invalidState
  | missingAccessToken
deriving DecidableEq, Repr

/-- `UpstoxCallbackPage.handleCallback` (lines 241 onward, with the write at
341-361): checks the user, the `error`/`code`/`state` parameters and the state
CSRF match, then writes the tokens, `token_expires_at =
calculateUpstoxTokenExpiry`, `is_active = true`, `is_verified = true`,
`last_verified_at = now` onto the stored row. -/
def handleCallback (user : Option String) (code state errorParam : Option String)
    (row : BrokerConnectionRow) (now : ℕ) (tok : TokenResponse) :
    Except CallbackError BrokerConnectionRow :=
  match user with
  | none => .error .notAuthenticated
  | some uid =>
    if errorParam.isSome then .error .upstreamOAuthError
    else if code.isNone then .error .missingCode
    else if state.isNone then .error .missingState
    else if state ≠ some uid then .error .invalidState
    else
      match tok.access_token with
      | none => .error .missingAccessToken
      | some accessToken =>
        .ok { row with
          access_token_encrypted := some accessToken
          refresh_token_encrypted := tok.extended_token
          token_expires_at := some (calculateUpstoxTokenExpiry now)
          is_active := true
          is_verified := true
          last_verified_at := some now }

/-! ### Live data store (packages/market-data/src/stores/liveDataStore.ts)

The store's tick map `liveData : Map<string, LiveMarketData>` and subscription
set are modelled as functions from keys.  The modelled `LiveMarketData` fields
are the ones the audited claims consult (`instrumentKey`, `ltp`, `volume`,
`netChange`, `percentChange`); a patch field carrying `none` stands for a
property that is absent from the partial update, in which case the object
spread `{...existing, ...data}` keeps the existing value. -/

/-- `ConnectionStatus` (liveDataStore.ts). -/
inductive ConnectionStatus
  | disconnected
  | connecting
  | connected
  | errored
  | reconnecting
deriving DecidableEq, Repr

/-- A live tick / partial tick patch (the modelled fields of
`LiveMarketData`). -/
structure LiveMarketData where
  instrumentKey : String
  ltp : Option ℚ
  volume : Option ℚ
  netChange : Option ℚ
  percentChange : Option ℚ
deriving DecidableEq, Repr

/-- The store state slice the audited operations touch: `upstoxService` is
abstracted to whether it is non-null (`hasService`). -/
structure LiveDataState where
  connectionStatus : ConnectionStatus
  isConnected : Bool
  hasService : Bool
  liveData : String → Option LiveMarketData
  subscriptions : String → Bool
  error : Option String

/-- `initialState` (liveDataStore.ts): empty map, empty subscription set,
disconnected. -/
def initialState : LiveDataState :=
  { connectionStatus := .disconnected
    isConnected := false
    hasService := false
    liveData := fun _ => none
    subscriptions := fun _ => false
    error := none }

/-- `updateLiveData` (liveDataStore.ts, lines 318-336): bails out when
`data.instrumentKey` is falsy (absent or the empty string), otherwise writes
`{...existing, ...data}` at that key — patch fields that are absent keep the
existing entry's values (`timestamp` is not modelled). -/
def updateLiveData (patch : LiveMarketData) (s : LiveDataState) : LiveDataState :=
  if patch.instrumentKey = "" then s
  else
    let existing := s.liveData patch.instrumentKey
    let merged : LiveMarketData :=
      { instrumentKey := patch.instrumentKey
        ltp := patch.ltp.orElse (fun _ => existing.bind (fun e => e.ltp))
        volume := patch.volume.orElse (fun _ => existing.bind (fun e => e.volume))
        netChange := patch.netChange.orElse (fun _ => existing.bind (fun e => e.netChange))
        percentChange :=
          patch.percentChange.orElse (fun _ => existing.bind (fun e => e.percentChange)) }
    { s with
        liveData := fun k =>
          if k = patch.instrumentKey then some merged else s.liveData k }

/-- `disconnect` (liveDataStore.ts, lines 166-191): stops the service, clears
the tick map and the subscription set, resets status and error. -/
def disconnect (s : LiveDataState) : LiveDataState :=
  { s with
      connectionStatus := .disconnected
      isConnected := false
      hasService := false
      liveData := fun _ => none
      subscriptions := fun _ => false
      error := none }

/-- `clearData` (liveDataStore.ts): empties the tick map only. -/
def clearData (s : LiveDataState) : LiveDataState :=
  { s with liveData := fun _ => none }

/-- `subscribe` (liveDataStore.ts): throws when service or connection is
missing; `remoteOk` stands for the remote subscribe call succeeding (on failure
the error is rethrown with no state change); on success the keys join the
subscription set (`subscriptionMode` is not modelled).  The tick map is never
touched. -/
def subscribe (remoteOk : Bool) (keys : List String) (s : LiveDataState) :
    Except String LiveDataState :=
  if !(s.hasService && s.isConnected) then
    .error "Not connected to market data stream"
  else if !remoteOk then
    .error "Subscription failed"
  else
    .ok { s with subscriptions := fun k => s.subscriptions k || keys.contains k }

/-- `unsubscribe` (liveDataStore.ts, lines 266-295): silently ignored when not
connected; on remote failure the error is rethrown with no state change; on
success the keys leave the subscription set AND their entries are deleted from
the tick map (`newLiveData.delete(key)`). -/
def unsubscribe (remoteOk : Bool) (keys : List String) (s : LiveDataState) :
    LiveDataState :=
  if !(s.hasService && s.isConnected) then s
  else if !remoteOk then s
  else
    { s with
        subscriptions := fun k => s.subscriptions k && !(keys.contains k)
        liveData := fun k => if keys.contains k then none else s.liveData k }

/-- `getMarketData` (liveDataStore.ts): `liveData.get(key) || null`. -/
def getMarketData (s : LiveDataState) (instrumentKey : String) :
    Option LiveMarketData :=
  s.liveData instrumentKey

/-! ### Poll-response handling (packages/market-data/src/services/upstoxService.ts) -/

/-- First-occurrence replacement of `:` by `|` on the character list:
JavaScript `instrumentKey.replace(':', '|')` with a string pattern replaces
only the first occurrence. -/
def replaceFirstColon : List Char → List Char
  | [] => []
  | c :: rest => if c = ':' then '|' :: rest else c :: replaceFirstColon rest

/-- Key normalization in `pollMarketData` (upstoxService.ts, line 282):
Upstox returns `"NSE_INDEX:Nifty 50"` while internal state uses
`"NSE_INDEX|Nifty 50"`. -/
def normalizeKey (instrumentKey : String) : String :=
  ⟨replaceFirstColon instrumentKey.data⟩

/-- One per-key object of the poll response body (`data.data`): the fields
`pollMarketData` reads, each possibly missing at runtime. -/
structure PollTick where
  last_price : Option ℚ
  volume : Option ℚ
  net_change : Option ℚ
  percent_change : Option ℚ
deriving DecidableEq, Repr

/-- The patch `pollMarketData` builds for one response entry and hands (via
`handleMarketData` and the `marketData` event) to the store: the key is
normalized, `volume`/`net_change`/`percent_change` are defaulted with `|| 0`,
`last_price` is passed through (`timestamp` and `ohlc` are not modelled). -/
def handleMarketDataFromPoll (instrumentKey : String) (md : PollTick) :
    LiveMarketData :=
  { instrumentKey := normalizeKey instrumentKey
    ltp := md.last_price
    volume := some (md.volume.getD 0)
    netChange := some (md.net_change.getD 0)
    percentChange := some (md.percent_change.getD 0) }

/-- One poll tick (upstoxService.ts, lines 280-294): every entry of the
response's `data` object is normalized and applied to the store in order. -/
def pollMarketData (resp : List (String × PollTick)) (s : LiveDataState) :
    LiveDataState :=
  resp.foldl (fun st e => updateLiveData (handleMarketDataFromPoll e.1 e.2) st) s

/-! ### Option chain enrichment (packages/market-data/src/hooks/useMarketData.ts)

`useOptionChainData.enrichedOptionChain` (lines 127-155) merges the cached
option chain rows with the live tick map.  The modelled cached-leg columns are
the ones the merge consults or the claim names; the remaining static columns
ride along unchanged under the object spread. -/

/-- Cached option-chain leg (`call_options` / `put_options` of
`OptionChainItem`, queries/staticDataQueries.ts). -/
structure OptionLeg where
  instrument_key : String
  trading_symbol : String
  ltp : ℚ
deriving DecidableEq, Repr

/-- Cached option-chain row. -/
structure OptionChainItem where
  strike : ℚ
  call_options : Option OptionLeg
  put_options : Option OptionLeg
deriving DecidableEq, Repr

/-- Enriched leg: the cached leg plus `live_ltp`, `current_ltp`, `isLive`. -/
structure EnrichedLeg where
  instrument_key : String
  trading_symbol : String
  ltp : ℚ
  live_ltp : Option ℚ
  current_ltp : ℚ
  isLive : Bool
deriving DecidableEq, Repr

/-- Enriched option-chain row. -/
structure EnrichedChainItem where
  strike : ℚ
  call_options : Option EnrichedLeg
  put_options : Option EnrichedLeg
deriving DecidableEq, Repr

/-- Per-leg merge: `chain.call_options?.instrument_key ? getMarketData(...) :
null` (an empty instrument key is falsy and skips the lookup), then
`live_ltp: callLiveData?.ltp`, `current_ltp: callLiveData?.ltp ||
chain.call_options.ltp` — the `||` falls back to the cached `ltp` when the live
`ltp` is missing or `0` — and `isLive: !!callLiveData`. -/
def enrichLeg (live : String → Option LiveMarketData) (c : OptionLeg) :
    EnrichedLeg :=
  let liveTick := if c.instrument_key = "" then none else live c.instrument_key
  let lv : Option ℚ := liveTick.bind (fun t => t.ltp)
  { instrument_key := c.instrument_key
    trading_symbol := c.trading_symbol
    ltp := c.ltp
    live_ltp := lv
    current_ltp :=
      match lv with
      | some v => if v = 0 then c.ltp else v
      | none => c.ltp
    isLive := liveTick.isSome }

/-- `enrichedOptionChain`: `[]` while the option-chain query has no data,
otherwise the cached rows with both legs enriched against the live map. -/
def enrichedOptionChain (live : String → Option LiveMarketData)
    (data : Option (List OptionChainItem)) : List EnrichedChainItem :=
  match data with
  | none => []
  | some rows =>
    rows.map (fun chain =>
      { strike := chain.strike
        call_options := chain.call_options.map (enrichLeg live)
        put_options := chain.put_options.map (enrichLeg live) })

/-- The amended C1 contract for one enriched leg against its cached leg. -/
def legMergeSpec (live : String → Option LiveMarketData) (c : OptionLeg)
    (ec : EnrichedLeg) : Prop :=
  ec.trading_symbol = c.trading_symbol ∧
  ec.instrument_key = c.instrument_key ∧
  ec.ltp = c.ltp ∧
  (∀ t v, c.instrument_key ≠ "" → live c.instrument_key = some t →
    t.ltp = some v → v ≠ 0 → ec.current_ltp = v) ∧
  (∀ t, c.instrument_key ≠ "" → live c.instrument_key = some t →
    (t.ltp = some 0 ∨ t.ltp = none) → ec.current_ltp = c.ltp) ∧
  (c.instrument_key ≠ "" → live c.instrument_key = none → ec.current_ltp = c.ltp)

/-! ### Concrete rows and inputs used by witnesses and counterexamples -/

/-- Row used by the C2 witness: added with `is_active = false`, not yet
verified. -/
def c2Row : BrokerConnectionRow :=
  ⟨"u", .upstox, "bu", "apikey", some "secret", none, none, false, false, none, none⟩

/-- Token response used by the C2 witness, with a (to-be-ignored) `expires_in`. -/
def c2Tok : TokenResponse := ⟨some "T", some "R", some 86400⟩

/-- Row used for C3: an active, verified connection whose token expires at
minute 100. -/
def c3Row : BrokerConnectionRow :=
  ⟨"u", .upstox, "bu", "apikey", none, some "A", some "R", true, true, some 100, some 0⟩

/-- Existing upstox row for the C4 counterexample. -/
def c4Existing : BrokerConnectionRow :=
  ⟨"u", .upstox, "bu", "longapikey123", some "longsecret123", none, none, true,
    true, none, some 0⟩

/-- Credentials for the same broker (upstox) passing the length validation. -/
def c4Creds : BrokerCredentials := ⟨.upstox, "bu2", "longapikey123", "longsecret123"⟩

/-- A live tick stored under the Nifty 50 key, for C5. -/
def c5Tick : LiveMarketData :=
  ⟨"NSE_INDEX|Nifty 50", some 24500, some 1000, some 50, some (1 / 5)⟩

/-- A connected store whose tick map holds exactly the Nifty 50 entry, for
C5. -/
def c5State : LiveDataState :=
  { connectionStatus := .connected
    isConnected := true
    hasService := true
    liveData := fun k => if k = "NSE_INDEX|Nifty 50" then some c5Tick else none
    subscriptions := fun k => k == "NSE_INDEX|Nifty 50"
    error := none }

/-- A poll-response object for the C6 witness (`last_price: 24500,
volume: 700000, net_change: 50, percent_change: 0.2`). -/
def c6Tick : PollTick := ⟨some 24500, some 700000, some 50, some (1 / 5)⟩

/-- A cached call leg with `ltp = 5`, for C1. -/
def c1Leg : OptionLeg := ⟨"NFO_OPT|NIFTY24JAN24500CE", "NIFTY24JAN24500CE", 5⟩

/-- A live map holding a tick for `c1Leg` whose live `ltp` is `0`, for the C1
counterexample. -/
def c1LiveZero : String → Option LiveMarketData := fun k =>
  if k = "NFO_OPT|NIFTY24JAN24500CE" then
    some ⟨"NFO_OPT|NIFTY24JAN24500CE", some 0, some 100, some 0, some 0⟩
  else none

/-- A live map holding a tick for `c1Leg` whose live `ltp` is `7`, for the C1
witness. -/
def c1LiveSeven : String → Option LiveMarketData := fun k =>
  if k = "NFO_OPT|NIFTY24JAN24500CE" then
    some ⟨"NFO_OPT|NIFTY24JAN24500CE", some 7, some 100, some 0, some 0⟩
  else none

/-! ### Theorems for the pure calculators -/

/-- C7: for every underlying price `P`, `getATMStrike P` with tick size 50 is a
multiple of 50 whose distance from `P` is at most 25. -/
theorem getATMStrike_spec (P : ℚ) :
    (∃ k : ℤ, getATMStrike P 50 = (k : ℚ) * 50) ∧ |getATMStrike P 50 - P| ≤ 25 := by
  constructor
  · exact ⟨round (P / 50), rfl⟩
  · have h : |P / 50 - (round (P / 50) : ℚ)| ≤ 1 / 2 := abs_sub_round (P / 50)
    have h50 : getATMStrike P 50 - P = 50 * ((round (P / 50) : ℚ) - P / 50) := by
      unfold getATMStrike
      ring
    rw [h50, abs_mul, abs_sub_comm]
    have : |(50 : ℚ)| = 50 := by norm_num
    rw [this]
    linarith [h]

/-- Unfolding of `generateStrikes atm 500 50`: the loop bound
`⌊2 * 500 / 50⌋ + 1` is 21 iterations. -/
theorem generateStrikes_eq (atm : ℚ) :
    generateStrikes atm 500 50 =
      (((List.range 21).map (fun k : Nat => atm - 500 + (k : ℚ) * 50)).filter
        (fun s => 0 < s)).mergeSort (fun a b => decide (a ≤ b)) := by
  have h20 : (2 * 500 / 50 : ℚ) = ((20 : ℤ) : ℚ) := by norm_num
  unfold generateStrikes
  rw [if_pos (by norm_num), h20, Int.floor_intCast]
  rfl

/-- In a strictly increasing list, an element that bounds the list from above is
its last element. -/
theorem getLast?_eq_of_mem_of_forall_le {l : List ℚ} (hl : l.Pairwise (· < ·))
    {x : ℚ} (hx : x ∈ l) (hub : ∀ y ∈ l, y ≤ x) : l.getLast? = some x := by
  induction l with
  | nil => cases hx
  | cons a t ih =>
    cases t with
    | nil =>
      simp only [List.mem_singleton] at hx
      simp [hx]
    | cons b t2 =>
      have hpt : (b :: t2).Pairwise (· < ·) := (List.pairwise_cons.mp hl).2
      have hxt : x ∈ b :: t2 := by
        rcases List.mem_cons.mp hx with rfl | hmem
        · exfalso
          have hab : x < b := (List.pairwise_cons.mp hl).1 b (List.mem_cons_self b t2)
          have hbx : b ≤ x := hub b (List.mem_cons_of_mem x (List.mem_cons_self b t2))
          linarith
        · exact hmem
      have hub2 : ∀ y ∈ b :: t2, y ≤ x := fun y hy => hub y (List.mem_cons_of_mem a hy)
      rw [List.getLast?_cons_cons]
      exact ih hpt hxt hub2

/-- Elements visited by the `generateStrikes atm 500 50` loop are at most
`atm + 500`. -/
theorem generateStrikes_loop_le (atm : ℚ) {x : ℚ}
    (hx : x ∈ (List.range 21).map (fun k : Nat => atm - 500 + (k : ℚ) * 50)) :
    x ≤ atm + 500 := by
  rcases List.mem_map.mp hx with ⟨k, hk, rfl⟩
  have hk20 : (k : ℚ) ≤ 20 := by
    have := List.mem_range.mp hk
    exact_mod_cast Nat.lt_succ_iff.mp this
  nlinarith

/-- C8: `generateStrikes atm 500 50` is strictly increasing, contains only
positive values, contains its would-be first element `atm - 500` exactly when
that value is positive, is empty when even `atm + 500` is non-positive, and
otherwise ends at `atm + 500`. -/
theorem generateStrikes_spec (atm : ℚ) :
    (generateStrikes atm 500 50).Pairwise (· < ·) ∧
    (∀ x ∈ generateStrikes atm 500 50, 0 < x) ∧
    ((atm - 500) ∈ generateStrikes atm 500 50 ↔ 0 < atm - 500) ∧
    (atm + 500 ≤ 0 → generateStrikes atm 500 50 = []) ∧
    (0 < atm + 500 → (generateStrikes atm 500 50).getLast? = some (atm + 500)) := by
  have hmono : ((List.range 21).map (fun k : Nat => atm - 500 + (k : ℚ) * 50)).Pairwise (· < ·) := by
    refine List.Pairwise.map _ (fun a b h => ?_) (List.pairwise_lt_range 21)
    have : (a : ℚ) < b := by exact_mod_cast h
    nlinarith
  have hfilt :
      (((List.range 21).map (fun k : Nat => atm - 500 + (k : ℚ) * 50)).filter
        (fun s => 0 < s)).Pairwise (· < ·) :=
    hmono.filter _
  have hmerge :
      (((List.range 21).map (fun k : Nat => atm - 500 + (k : ℚ) * 50)).filter
          (fun s => 0 < s)).mergeSort (fun a b => decide (a ≤ b)) =
        ((List.range 21).map (fun k : Nat => atm - 500 + (k : ℚ) * 50)).filter
          (fun s => 0 < s) :=
    List.mergeSort_of_sorted (hfilt.imp fun h => by simp [le_of_lt h])
  have hL : generateStrikes atm 500 50 =
      ((List.range 21).map (fun k : Nat => atm - 500 + (k : ℚ) * 50)).filter
        (fun s => 0 < s) := by
    rw [generateStrikes_eq, hmerge]
  have hpos : ∀ x ∈ generateStrikes atm 500 50, 0 < x := by
    intro x hx
    rw [hL] at hx
    have := List.of_mem_filter hx
    simpa using this
  refine ⟨?_, hpos, ⟨fun h => hpos _ h, fun h => ?_⟩, fun h => ?_, fun h => ?_⟩
  · rw [hL]; exact hfilt
  · rw [hL]
    refine List.mem_filter.mpr ⟨?_, by simpa using h⟩
    exact List.mem_map.mpr ⟨0, List.mem_range.mpr (by norm_num), by push_cast; ring⟩
  · rw [hL]
    rw [List.eq_nil_iff_forall_not_mem]
    intro x hx
    have hx0 : 0 < x := by simpa using List.of_mem_filter hx
    have hxle : x ≤ atm + 500 := generateStrikes_loop_le atm (List.mem_filter.mp hx).1
    linarith
  · rw [hL]
    refine getLast?_eq_of_mem_of_forall_le hfilt ?_ ?_
    · refine List.mem_filter.mpr ⟨?_, by simpa using h⟩
      exact List.mem_map.mpr ⟨20, List.mem_range.mpr (by norm_num), by push_cast; ring⟩
    · intro y hy
      exact generateStrikes_loop_le atm (List.mem_filter.mp hy).1

/-- Witness for C8 at `atm = 1000`. -/
theorem generateStrikes_spec_witness :
    (0 : ℚ) < 1000 + 500 ∧ (generateStrikes 1000 500 50).getLast? = some 1500 := by
  refine ⟨by norm_num, ?_⟩
  have h := (generateStrikes_spec 1000).2.2.2.2 (by norm_num)
  norm_num at h
  exact h

/-- C9: `calculatePCR` returns the put/call volume and OI quotients, and
returns exactly 0 for a ratio whose call-side total is 0. -/
theorem calculatePCR_spec (ceData peData : List OptionData) :
    ((0 < totalVolume ceData →
        (calculatePCR ceData peData).byVolume = totalVolume peData / totalVolume ceData) ∧
      (totalVolume ceData = 0 → (calculatePCR ceData peData).byVolume = 0)) ∧
    ((0 < totalOI ceData →
        (calculatePCR ceData peData).byOI = totalOI peData / totalOI ceData) ∧
      (totalOI ceData = 0 → (calculatePCR ceData peData).byOI = 0)) := by
  refine ⟨⟨fun h => ?_, fun h => ?_⟩, ⟨fun h => ?_, fun h => ?_⟩⟩ <;>
    simp [calculatePCR, h]

/-- Witness for C9 at the zero boundaries (empty call side). -/
theorem calculatePCR_spec_witness :
    totalVolume [] = 0 ∧
    (calculatePCR [] [⟨some 5, some 7⟩]).byVolume = 0 ∧
    (calculatePCR [] [⟨some 5, some 7⟩]).byOI = 0 := by
  exact ⟨rfl, (calculatePCR_spec [] [⟨some 5, some 7⟩]).1.2 rfl,
    (calculatePCR_spec [] [⟨some 5, some 7⟩]).2.2 rfl⟩

/-- C10: `isMarketOpen` is false on Saturday/Sunday, and on weekdays is true
exactly when the local time of day lies within [09:15, 15:30] inclusive. -/
theorem isMarketOpen_spec (day hours minutes : ℕ) (hm : minutes < 60) :
    ((day = 0 ∨ day = 6) → isMarketOpen day hours minutes = false) ∧
    (day ≠ 0 → day ≠ 6 →
      (isMarketOpen day hours minutes = true ↔
        ((10 ≤ hours ∨ (hours = 9 ∧ 15 ≤ minutes)) ∧
          (hours ≤ 14 ∨ (hours = 15 ∧ minutes ≤ 30))))) := by
  constructor
  · intro h; simp [isMarketOpen, h]
  · intro h0 h6
    have hcond : ¬(day = 0 ∨ day = 6) := by tauto
    simp only [isMarketOpen, if_neg hcond, decide_eq_true_eq]
    omega

/-- Witness for C10: Tuesday 09:14/09:15/15:30/15:31 and a Saturday. -/
theorem isMarketOpen_spec_witness :
    isMarketOpen 2 9 15 = true ∧ isMarketOpen 2 9 14 = false ∧
    isMarketOpen 2 15 30 = true ∧ isMarketOpen 2 15 31 = false ∧
    isMarketOpen 6 12 0 = false := by
  refine ⟨?_, ?_, ?_, ?_, ?_⟩
  · exact ((isMarketOpen_spec 2 9 15 (by norm_num)).2 (by decide) (by decide)).mpr
      (by omega)
  · have h := (isMarketOpen_spec 2 9 14 (by norm_num)).2 (by decide) (by decide)
    exact Bool.eq_false_iff.mpr (fun hv => by have := h.mp hv; omega)
  · exact ((isMarketOpen_spec 2 15 30 (by norm_num)).2 (by decide) (by decide)).mpr
      (by omega)
  · have h := (isMarketOpen_spec 2 15 31 (by norm_num)).2 (by decide) (by decide)
    exact Bool.eq_false_iff.mpr (fun hv => by have := h.mp hv; omega)
  · exact (isMarketOpen_spec 6 12 0 (by norm_num)).1 (Or.inr rfl)

/-! ### Theorems for the connection lifecycle -/

/-- `handleCallback` never reads `expires_in`: both sides unfold to the same
computation. -/
theorem handleCallback_ignores_expires_in (user code state errorParam : Option String)
    (row : BrokerConnectionRow) (now : ℕ) (tok : TokenResponse) (e : Option ℕ) :
    handleCallback user code state errorParam row now { tok with expires_in := e } =
      handleCallback user code state errorParam row now tok := rfl

/-- On every successful `handleCallback` the stored row carries
`is_active = true`, `is_verified = true` and the computed fixed expiry. -/
theorem handleCallback_ok_fields (user code state errorParam : Option String)
    (row : BrokerConnectionRow) (now : ℕ) (tok : TokenResponse)
    (row2 : BrokerConnectionRow)
    (hok : handleCallback user code state errorParam row now tok = .ok row2) :
    row2.is_active = true ∧ row2.is_verified = true ∧
    row2.token_expires_at = some (calculateUpstoxTokenExpiry now) := by
  cases user with
  | none => simp [handleCallback] at hok
  | some uid =>
    simp only [handleCallback] at hok
    by_cases h1 : errorParam.isSome
    · rw [if_pos h1] at hok; cases hok
    · rw [if_neg h1] at hok
      by_cases h2 : code.isNone
      · rw [if_pos h2] at hok; cases hok
      · rw [if_neg h2] at hok
        by_cases h3 : state.isNone
        · rw [if_pos h3] at hok; cases hok
        · rw [if_neg h3] at hok
          by_cases h4 : state ≠ some uid
          · rw [if_pos h4] at hok; cases hok
          · rw [if_neg h4] at hok
            cases htok : tok.access_token with
            | none => rw [htok] at hok; cases hok
            | some accessToken =>
              rw [htok] at hok
              cases hok
              exact ⟨rfl, rfl, rfl⟩

/-- C2: a row added with `is_active = false` that then completes OAuth
successfully at any wall-clock minute `now` afterwards stores
`is_active = true`, `is_verified = true`, and `token_expires_at` at 03:30 local
time on the calendar day following `now`, independent of any `expires_in` value
in the broker's token response. -/
theorem oauthCallback_roundtrip (user code state errorParam : Option String)
    (row row2 : BrokerConnectionRow) (now : ℕ) (tok : TokenResponse)
    (_hadded : row.is_active = false)
    (hok : handleCallback user code state errorParam row now tok = .ok row2) :
    row2.is_active = true ∧ row2.is_verified = true ∧
    row2.token_expires_at = some (calculateUpstoxTokenExpiry now) ∧
    calculateUpstoxTokenExpiry now / 1440 = now / 1440 + 1 ∧
    calculateUpstoxTokenExpiry now % 1440 = 3 * 60 + 30 ∧
    (∀ expiresIn, handleCallback user code state errorParam row now
        { tok with expires_in := expiresIn } = .ok row2) := by
  have hf := handleCallback_ok_fields user code state errorParam row now tok row2 hok
  refine ⟨hf.1, hf.2.1, hf.2.2, ?_, ?_, fun e =>
    (handleCallback_ignores_expires_in user code state errorParam row now tok e).trans hok⟩
  · unfold calculateUpstoxTokenExpiry; omega
  · unfold calculateUpstoxTokenExpiry; omega

/-- Witness for C2 at the 23:59 boundary (`now = 1439`) and the 00:01 boundary
(`now = 1441`): both completions expire at 03:30 the following calendar day. -/
theorem oauthCallback_roundtrip_witness :
    ((handleCallback (some "u") (some "c") (some "u") none c2Row 1439 c2Tok).toOption.map
        (fun r => r.token_expires_at)) = some (some 1650) ∧
    calculateUpstoxTokenExpiry 1439 / 1440 = 1439 / 1440 + 1 ∧
    calculateUpstoxTokenExpiry 1439 % 1440 = 3 * 60 + 30 ∧
    ((handleCallback (some "u") (some "c") (some "u") none c2Row 1441 c2Tok).toOption.map
        (fun r => r.token_expires_at)) = some (some 3090) ∧
    calculateUpstoxTokenExpiry 1441 / 1440 = 1441 / 1440 + 1 := by
  have h1 := oauthCallback_roundtrip (some "u") (some "c") (some "u") none c2Row
    ⟨"u", .upstox, "bu", "apikey", some "secret", some "T", some "R", true, true,
      some 1650, some 1439⟩ 1439 c2Tok rfl rfl
  have h2 := oauthCallback_roundtrip (some "u") (some "c") (some "u") none c2Row
    ⟨"u", .upstox, "bu", "apikey", some "secret", some "T", some "R", true, true,
      some 3090, some 1441⟩ 1441 c2Tok rfl rfl
  exact ⟨rfl, h1.2.2.2.1, h1.2.2.2.2.1, rfl, h2.2.2.2.1⟩

/-- C3 counterexample: after a failed `refreshBrokerToken` at minute 5 the
stored row is NOT set to `is_active = false, is_verified = false` — it is left
untouched — and the next `initializeConnection` for this user succeeds instead
of failing with `noActiveConnection`. -/
theorem refreshToken_failure_counterexample :
    (refreshBrokerToken c3Row 5 false).1.is_active = true ∧
    (refreshBrokerToken c3Row 5 false).1.is_verified = true ∧
    initializeConnection [(refreshBrokerToken c3Row 5 false).1] 5 = .ok c3Row := by
  exact ⟨rfl, rfl, rfl⟩

/-- C3 (amended): a failed `refreshBrokerToken` leaves the stored row unchanged
(neither deleted nor soft-disabled) and only records an error message; a
subsequent `initializeConnection` fails with `noActiveConnection` exactly for
row-sets without a single active row, and succeeds on the untouched active row
while its token is unexpired. -/
theorem refreshToken_failure_spec (row : BrokerConnectionRow) (now now2 expiry : ℕ)
    (hact : row.is_active = true) (hexp : row.token_expires_at = some expiry)
    (hfresh : now2 < expiry) :
    (refreshBrokerToken row now false).1 = row ∧
    ((refreshBrokerToken row now false).2).isSome = true ∧
    initializeConnection [(refreshBrokerToken row now false).1] now2 = .ok row ∧
    (∀ rows : List BrokerConnectionRow, rows.filter (fun r => r.is_active) = [] →
      initializeConnection rows now2 = .error .noActiveConnection) := by
  refine ⟨rfl, rfl, ?_, ?_⟩
  · show initializeConnection [row] now2 = .ok row
    unfold initializeConnection
    simp only [List.filter, hact]
    rw [hexp]
    simp [if_neg (by omega : ¬ expiry ≤ now2)]
  · intro rows hrows
    unfold initializeConnection
    rw [hrows]

/-- Witness for C3 (amended) on the concrete row. -/
theorem refreshToken_failure_spec_witness :
    (refreshBrokerToken c3Row 5 false).1 = c3Row ∧
    initializeConnection [(refreshBrokerToken c3Row 5 false).1] 5 = .ok c3Row := by
  have h := refreshToken_failure_spec c3Row 5 5 100 rfl rfl (by norm_num)
  exact ⟨h.1, h.2.2.1⟩

/-- C4 counterexample: a connection for the same broker already exists among the
user's fetched connections, yet `addBrokerConnection` does NOT reject — it
inserts a second row, leaving two rows for `(user "u", upstox)`. -/
theorem addConnection_duplicate_counterexample :
    c4Existing.broker_name = c4Creds.broker_name ∧
    addBrokerConnection (some "u") [c4Existing] c4Creds 7 =
      .ok [c4Existing, newConnectionRow "u" c4Creds 7] ∧
    ([c4Existing, newConnectionRow "u" c4Creds 7].countP
      (fun r => r.broker_name == BrokerName.upstox && r.user_id == "u")) = 2 := by
  refine ⟨rfl, ?_, by decide⟩
  have hv : validateBrokerCredentials c4Creds = true := by decide
  simp [addBrokerConnection, hv]

/-- C4 (amended): `addBrokerConnection` performs no same-broker uniqueness
check: for an authenticated user it rejects exactly when the credential length
validation fails; with valid credentials it inserts even when the user's fetched
connections already contain a row for the same broker, so at least two rows for
that `(user_id, broker_name)` result. -/
theorem addBrokerConnection_spec (uid : String)
    (connections : List BrokerConnectionRow) (credentials : BrokerCredentials)
    (now : ℕ) (dup : BrokerConnectionRow)
    (hdup : dup ∈ connections) (hbroker : dup.broker_name = credentials.broker_name)
    (huser : dup.user_id = uid)
    (hvalid : validateBrokerCredentials credentials = true) :
    ∃ rows2, addBrokerConnection (some uid) connections credentials now = .ok rows2 ∧
      2 ≤ rows2.countP
        (fun r => r.broker_name == credentials.broker_name && r.user_id == uid) := by
  refine ⟨connections ++ [newConnectionRow uid credentials now], ?_, ?_⟩
  · simp [addBrokerConnection, hvalid]
  · rw [List.countP_append]
    have h1 : 0 < connections.countP
        (fun r => r.broker_name == credentials.broker_name && r.user_id == uid) := by
      rw [List.countP_pos_iff]
      exact ⟨dup, hdup, by simp [hbroker, huser]⟩
    have h2 : ([newConnectionRow uid credentials now]).countP
        (fun r => r.broker_name == credentials.broker_name && r.user_id == uid) = 1 := by
      simp [List.countP_cons, newConnectionRow]
    omega

/-- Witness for C4 (amended) at the concrete duplicate. -/
theorem addBrokerConnection_spec_witness :
    ∃ rows2, addBrokerConnection (some "u") [c4Existing] c4Creds 7 = .ok rows2 ∧
      2 ≤ rows2.countP
        (fun r => r.broker_name == c4Creds.broker_name && r.user_id == "u") := by
  exact addBrokerConnection_spec "u" [c4Existing] c4Creds 7 c4Existing
    (List.mem_singleton.mpr rfl) rfl rfl (by decide)

/-! ### Theorems for the live data store -/

/-- `updateLiveData` leaves every key other than the patch's own untouched. -/
theorem updateLiveData_liveData_other (patch : LiveMarketData)
    (s : LiveDataState) (k : String) (hk : k ≠ patch.instrumentKey) :
    (updateLiveData patch s).liveData k = s.liveData k := by
  unfold updateLiveData
  by_cases h : patch.instrumentKey = ""
  · rw [if_pos h]
  · rw [if_neg h]
    simp [if_neg hk]

/-- `updateLiveData` with a nonempty key stores a merged entry at that key; the
merged entry keeps the key and takes the patch's `ltp` when present. -/
theorem updateLiveData_liveData_self (patch : LiveMarketData) (s : LiveDataState)
    (h : patch.instrumentKey ≠ "") :
    ∃ t, (updateLiveData patch s).liveData patch.instrumentKey = some t ∧
      t.instrumentKey = patch.instrumentKey ∧
      t.ltp = patch.ltp.orElse
        (fun _ => (s.liveData patch.instrumentKey).bind (fun e => e.ltp)) := by
  simp [updateLiveData, h]

/-- C5 counterexample: `unsubscribe` on a connected store DOES remove entries of
the live-tick map — the Nifty 50 entry is present before and gone after. -/
theorem unsubscribe_removes_ticks_counterexample :
    c5State.liveData "NSE_INDEX|Nifty 50" = some c5Tick ∧
    (unsubscribe true ["NSE_INDEX|Nifty 50"] c5State).liveData
      "NSE_INDEX|Nifty 50" = none := by
  exact ⟨rfl, rfl⟩

/-- C5 (amended): the live-tick map is written by the poll-result handler
(`updateLiveData`, and only at the patch's own key), cleared by `disconnect`
and `clearData`, and additionally `unsubscribe` on a connected store deletes
exactly the entries of the unsubscribed keys (a no-op when not connected);
`subscribe` never touches the map. -/
theorem liveData_map_mutations (s : LiveDataState) (keys : List String)
    (patch : LiveMarketData) (remoteOk : Bool) (k : String) :
    (s.hasService = true → s.isConnected = true →
      (unsubscribe true keys s).liveData k =
        if keys.contains k then none else s.liveData k) ∧
    ((s.hasService && s.isConnected) = false → unsubscribe remoteOk keys s = s) ∧
    ((disconnect s).liveData k = none) ∧
    ((clearData s).liveData k = none) ∧
    (patch.instrumentKey ≠ "" → k ≠ patch.instrumentKey →
      (updateLiveData patch s).liveData k = s.liveData k) ∧
    (patch.instrumentKey ≠ "" →
      ((updateLiveData patch s).liveData patch.instrumentKey).isSome = true) ∧
    (∀ s2, subscribe remoteOk keys s = .ok s2 → s2.liveData = s.liveData) := by
  refine ⟨?_, ?_, rfl, rfl, ?_, ?_, ?_⟩
  · intro h1 h2
    simp [unsubscribe, h1, h2]
  · intro h
    simp [unsubscribe, h]
  · intro _ hk
    exact updateLiveData_liveData_other patch s k hk
  · intro h
    unfold updateLiveData
    rw [if_neg h]
    simp
  · intro s2 hok
    unfold subscribe at hok
    by_cases h : (!(s.hasService && s.isConnected)) = true
    · rw [if_pos h] at hok; cases hok
    · rw [if_neg h] at hok
      by_cases h2 : (!remoteOk) = true
      · rw [if_pos h2] at hok; cases hok
      · rw [if_neg h2] at hok
        cases hok
        rfl

/-- Witness for C5 (amended) on the concrete connected store. -/
theorem liveData_map_mutations_witness :
    (unsubscribe true ["NSE_INDEX|Nifty 50"] c5State).liveData
      "NSE_INDEX|Nifty 50" = none ∧
    (disconnect c5State).liveData "NSE_INDEX|Nifty 50" = none := by
  have h := liveData_map_mutations c5State ["NSE_INDEX|Nifty 50"] c5Tick true
    "NSE_INDEX|Nifty 50"
  refine ⟨?_, h.2.2.1⟩
  have h1 := h.1 rfl rfl
  simpa using h1

/-- C6: poll-response keys are normalized (first `:` becomes `|`) before the
tick map is written: the map changes only at normalized keys, a single-entry
response stores its tick under the normalized key with the response's
`last_price` as `ltp`, and `"NSE_INDEX:Nifty 50"` normalizes to
`"NSE_INDEX|Nifty 50"`. -/
theorem pollMarketData_normalizes_keys :
    (∀ (s : LiveDataState) (resp : List (String × PollTick)) (q : String),
      (∀ e ∈ resp, normalizeKey e.1 ≠ q) →
      (pollMarketData resp s).liveData q = s.liveData q) ∧
    (∀ (s : LiveDataState) (k : String) (md : PollTick) (p : ℚ),
      normalizeKey k ≠ "" → md.last_price = some p →
      ∃ t, (pollMarketData [(k, md)] s).liveData (normalizeKey k) = some t ∧
        t.instrumentKey = normalizeKey k ∧ t.ltp = some p) ∧
    normalizeKey "NSE_INDEX:Nifty 50" = "NSE_INDEX|Nifty 50" := by
  refine ⟨?_, ?_, ?_⟩
  · intro s resp
    induction resp generalizing s with
    | nil => intro q _; rfl
    | cons e rest ih =>
      intro q hq
      have hstep : pollMarketData (e :: rest) s =
          pollMarketData rest (updateLiveData (handleMarketDataFromPoll e.1 e.2) s) :=
        rfl
      rw [hstep, ih _ q (fun f hf => hq f (List.mem_cons_of_mem e hf))]
      exact updateLiveData_liveData_other _ s q
        (fun hc => hq e (List.mem_cons_self e rest) hc.symm)
  · intro s k md p hne hlp
    obtain ⟨t, ht, hik, hltp⟩ := updateLiveData_liveData_self
      (handleMarketDataFromPoll k md) s
      (by simpa [handleMarketDataFromPoll] using hne)
    refine ⟨t, ht, hik, ?_⟩
    rw [hltp]
    simp [handleMarketDataFromPoll, hlp]
  · rfl

/-- Witness for C6: a response keyed `"NSE_INDEX:Nifty 50"` with
`last_price 24500`, applied to the initial store, is retrievable at
`"NSE_INDEX|Nifty 50"`. -/
theorem pollMarketData_normalizes_keys_witness :
    ∃ t, (pollMarketData [("NSE_INDEX:Nifty 50", c6Tick)] initialState).liveData
        "NSE_INDEX|Nifty 50" = some t ∧
      t.instrumentKey = "NSE_INDEX|Nifty 50" ∧ t.ltp = some 24500 := by
  have h := pollMarketData_normalizes_keys
  have h2 := h.2.1 initialState "NSE_INDEX:Nifty 50" c6Tick 24500
    (by rw [h.2.2]; decide) rfl
  rw [h.2.2] at h2
  exact h2

/-! ### Theorems for the option chain merge -/

/-- C1 counterexample: the live map holds a tick for the cached call leg's key
with live `ltp = 0`, yet the enriched `current_ltp` is the cached `5`, not the
live `0` — the merge is `||`, not `??`. -/
theorem enrichedOptionChain_zero_ltp_counterexample :
    (c1LiveZero "NFO_OPT|NIFTY24JAN24500CE").bind (fun t => t.ltp) = some 0 ∧
    ((enrichedOptionChain c1LiveZero (some [⟨24500, some c1Leg, none⟩])).map
      (fun r => r.call_options.map (fun e => e.current_ltp))) = [some 5] ∧
    (5 : ℚ) ≠ 0 := by
  exact ⟨rfl, rfl, by norm_num⟩

/-- C1 (amended): each enriched row keeps the cached static fields and shows
`current_ltp` equal to the live `ltp` exactly when a live tick exists with a
present, nonzero `ltp`; a live `ltp` of `0` or a missing tick/field falls back
to the cached `ltp`. -/
theorem enrichedOptionChain_merge (live : String → Option LiveMarketData)
    (rows : List OptionChainItem) (i : ℕ) (chain : OptionChainItem)
    (hrow : rows[i]? = some chain) :
    ∃ er, (enrichedOptionChain live (some rows))[i]? = some er ∧
      er.strike = chain.strike ∧
      (∀ c, chain.call_options = some c →
        ∃ ec, er.call_options = some ec ∧ legMergeSpec live c ec) ∧
      (∀ c, chain.put_options = some c →
        ∃ ec, er.put_options = some ec ∧ legMergeSpec live c ec) := by
  have hleg : ∀ c : OptionLeg, legMergeSpec live c (enrichLeg live c) := by
    intro c
    unfold legMergeSpec enrichLeg
    refine ⟨rfl, rfl, rfl, ?_, ?_, ?_⟩
    · intro t v hkey hlive hltp hv
      simp only [if_neg hkey]
      rw [hlive]
      simp [hltp, hv]
    · intro t hkey hlive hzero
      simp only [if_neg hkey]
      rw [hlive]
      rcases hzero with h0 | h0 <;> simp [h0]
    · intro hkey hnone
      simp only [if_neg hkey]
      rw [hnone]
      rfl
  refine ⟨{ strike := chain.strike
            call_options := chain.call_options.map (enrichLeg live)
            put_options := chain.put_options.map (enrichLeg live) },
    ?_, rfl, ?_, ?_⟩
  · unfold enrichedOptionChain
    rw [List.getElem?_map, hrow]
    rfl
  · intro c hc
    exact ⟨enrichLeg live c, by simp [hc], hleg c⟩
  · intro c hc
    exact ⟨enrichLeg live c, by simp [hc], hleg c⟩

/-- Witness for C1 (amended): live tick with nonzero `ltp = 7` wins over the
cached `ltp = 5`, statics unchanged. -/
theorem enrichedOptionChain_merge_witness :
    ∃ er, (enrichedOptionChain c1LiveSeven (some [⟨24500, some c1Leg, none⟩]))[0]? =
        some er ∧
      ∃ ec, er.call_options = some ec ∧ ec.current_ltp = 7 ∧
        ec.trading_symbol = "NIFTY24JAN24500CE" := by
  obtain ⟨er, her, -, hcall, -⟩ :=
    enrichedOptionChain_merge c1LiveSeven [⟨24500, some c1Leg, none⟩] 0
      ⟨24500, some c1Leg, none⟩ rfl
  obtain ⟨ec, hec, hspec⟩ := hcall c1Leg rfl
  refine ⟨er, her, ec, hec, ?_, ?_⟩
  · exact hspec.2.2.2.1 ⟨"NFO_OPT|NIFTY24JAN24500CE", some 7, some 100, some 0, some 0⟩
      7 (by decide) rfl rfl (by norm_num)
  · exact hspec.1.trans rfl

end NextAlgo
